import Mathlib

/-!
Shallow embedding of `src/app.py` (bulk HTML translator):
the prompt builder (`TRANSLATION_PROMPT_TEMPLATE.format`), the resilient
Gemini client (`get_gemini_translation`) and the per-row batch loop of the
translate button, together with proofs of the specification claims.

Python dynamic values reached by the response-classification code are
modelled by `Json`; the dictionary/list operations the code performs on
them (`in`, `[...]`, truthiness, `.strip()`) are modelled by `pyIn`,
`pyIndexStr`, `pyIndexNat`, `pyTruthy` and `pyStrip`, each raising the
exception the Python operation would raise via `Except PyErr`.
-/

/-- JSON-like Python values returned by `response.json()`. -/
inductive Json where
  | null : Json
  | bool (b : Bool) : Json
  | num (n : Int) : Json
  | str (s : String) : Json
  | arr (xs : List Json) : Json
  | obj (fields : List (String × Json)) : Json

/-- Exceptions the modelled Python operations can raise; all of them are
caught by the bare `except Exception` handler in `get_gemini_translation`. -/
inductive PyErr where
  | typeError : PyErr
  | keyError : PyErr
  | indexError : PyErr
  | attributeError : PyErr
deriving DecidableEq

instance {ε α : Type} [DecidableEq ε] [DecidableEq α] : DecidableEq (Except ε α)
  | .error a, .error b => decidable_of_iff (a = b) (by simp)
  | .error _, .ok _ => .isFalse (fun h => by cases h)
  | .ok _, .error _ => .isFalse (fun h => by cases h)
  | .ok a, .ok b => decidable_of_iff (a = b) (by simp)

/-- Prefix-scanning check used to model Python substring membership
(`key in someString`). -/
def containsSub (hay need : List Char) : Bool :=
  (List.range (hay.length + 1)).any (fun i => need.isPrefixOf (hay.drop i))

/-- Python `key in value` for the shapes `response.json()` can produce:
dict → key lookup, list → element equality, str → substring test,
anything else → `TypeError` (`argument of type ... is not iterable`). -/
def pyIn (key : String) : Json → Except PyErr Bool
  | .obj fields => .ok (fields.any (fun kv => kv.1 == key))
  | .arr xs =>
    .ok (xs.any (fun j => match j with | .str s => s == key | _ => false))
  | .str s => .ok (containsSub s.data key.data)
  | _ => .error .typeError

/-- Python `value[key]` with a string key: dict → lookup (`KeyError` when
absent), everything else → `TypeError`. -/
def pyIndexStr (key : String) : Json → Except PyErr Json
  | .obj fields =>
    match fields.find? (fun kv => kv.1 == key) with
    | some kv => .ok kv.2
    | none => .error .keyError
  | _ => .error .typeError

/-- Python `value[i]` with an integer index: list → element (`IndexError`
out of range), str → one-character string, dict → `KeyError` (JSON object
keys are strings, so an integer key is never present), else `TypeError`. -/
def pyIndexNat (i : Nat) : Json → Except PyErr Json
  | .arr xs =>
    match xs.get? i with
    | some j => .ok j
    | none => .error .indexError
  | .str s =>
    match s.data.get? i with
    | some c => .ok (.str (String.mk [c]))
    | none => .error .indexError
  | .obj _ => .error .keyError
  | _ => .error .typeError

/-- Python truthiness of a JSON-like value (the `if` guard on the candidates list). -/
def pyTruthy : Json → Bool
  | .null => false
  | .bool b => b
  | .num n => n != 0
  | .str s => s != ""
  | .arr xs => !xs.isEmpty
  | .obj fields => !fields.isEmpty

/-- Whitespace stripped by Python `str.strip()` (ASCII fragment). -/
def isPyWhitespace (c : Char) : Bool :=
  c = ' ' || c = '\t' || c = '\n' || c = '\r' || c = '\x0b' || c = '\x0c'

/-- Python `s.strip()`: drop leading and trailing whitespace. -/
def pyStrip (s : String) : String :=
  String.mk (((s.data.dropWhile isPyWhitespace).reverse.dropWhile isPyWhitespace).reverse)

/-- Lines 86-93 of `app.py`: navigate the decoded payload.
`ok (some t)` models `return translated_text.strip()`, `ok none` models
falling through to `return "Error: Unexpected response format."`, and
`error e` models an exception escaping to the `except Exception` handler.
Python re-evaluates the candidate list indexing inside the second condition;
the operations are pure, so binding the value once is equivalent. -/
def extractTranslation (result : Json) : Except PyErr (Option String) := do
  let hasCands ← pyIn "candidates" result
  if hasCands then
    let cands ← pyIndexStr "candidates" result
    if pyTruthy cands then
      let c0 ← pyIndexNat 0 cands
      let hasContent ← pyIn "content" c0
      if hasContent then
        let content ← pyIndexStr "content" c0
        let hasParts ← pyIn "parts" content
        if hasParts then
          let parts ← pyIndexStr "parts" content
          let p0 ← pyIndexNat 0 parts
          let t ← pyIndexStr "text" p0
          match t with
          | .str s => pure (some (pyStrip s))
          | _ => throw .attributeError
        else
          pure none
      else
        pure none
    else
      pure none
  else
    pure none




/-- What one `requests.post` attempt does, as seen by the caller:
`resp status body text` is a returned response (`body = none` when
`response.json()` would raise a decode error, `text` models
`response.text`); `exn` is a transport-level exception raised by the call
itself. -/
inductive AttemptOutcome where
  | resp (status : Nat) (body : Option Json) (text : String) : AttemptOutcome
  | exn (msg : String) : AttemptOutcome

/-- Observable behaviour of one `get_gemini_translation` call: the string
it returns, how many attempts (loop iterations reaching `requests.post`)
were made, and the list of `time.sleep` durations in order. -/
structure TranslateResult where
  output : String
  attempts : Nat
  sleeps : List Nat
deriving DecidableEq

/-- The body of the `for attempt in range(max_retries)` loop of
`get_gemini_translation` (lines 78-109 of `app.py`), one list element per
remaining iteration; `delay` is the current backoff delay.  The `[]` case
is the fall-through after the loop: `return "Error: Max retries exceeded."`.
`response.raise_for_status()` raises exactly for statuses 400-599; a 429
sleeps `delay`, doubles it and continues; any other error status returns
the f-string Error: HTTP status_code; exceptions from the attempt
(transport, JSON decode, payload navigation) return
`"Error: API call failed."`. -/
def translateGo (delay : Nat) : List AttemptOutcome → TranslateResult
  | [] => ⟨"Error: Max retries exceeded.", 0, []⟩
  | o :: rest =>
    match o with
    | .exn _ => ⟨"Error: API call failed.", 1, []⟩
    | .resp status body _ =>
      if 400 ≤ status ∧ status < 600 then
        if status = 429 then
          let r := translateGo (delay * 2) rest
          ⟨r.output, r.attempts + 1, delay :: r.sleeps⟩
        else
          ⟨"Error: HTTP " ++ toString status, 1, []⟩
      else
        match body with
        | none => ⟨"Error: API call failed.", 1, []⟩
        | some result =>
          match extractTranslation result with
          | .ok (some s) => ⟨s, 1, []⟩
          | .ok none => ⟨"Error: Unexpected response format.", 1, []⟩
          | .error _ => ⟨"Error: API call failed.", 1, []⟩

/-- Line 75 of `app.py`: the retry budget, 5 attempts in total. -/
def max_retries : Nat := 5

/-- Lines 53-109 of `app.py`, run against a stub remote
endpoint: `stub n` is what the `n`-th `requests.post` would produce.
Initial delay is 1 second. -/
def get_gemini_translation (stub : Nat → AttemptOutcome) : TranslateResult :=
  translateGo 1 ((List.range max_retries).map stub)

/-- A well-formed successful payload carrying `text` as the translation. -/
def goodPayload (text : String) : Json :=
  .obj [("candidates", .arr [.obj [("content",
    .obj [("parts", .arr [.obj [("text", .str text)]])])]])]




/-- A pandas cell: a string, a number, or a missing value (`NaN`); only
`str` passes the `isinstance(english_text, str)` check. -/
inductive Cell where
  | str (s : String) : Cell
  | num (n : Int) : Cell
  | na : Cell
deriving DecidableEq

/-- A dataframe row as an association list from column name to cell. -/
abbrev RowMap := List (String × Cell)

/-- Reading a cell: the first binding of column `c` in the row, if any. -/
def getCell (c : String) : RowMap → Option Cell
  | [] => none
  | (k, v) :: rest => if k == c then some v else getCell c rest

/-- Writing a cell: replace the binding of column `c`, or append the
column if absent. -/
def setCol (c : String) (v : Cell) : RowMap → RowMap
  | [] => [(c, v)]
  | (k, w) :: rest => if k == c then (c, v) :: rest else (k, w) :: setCol c v rest

/-- The guard on line 205 of `app.py`:
`isinstance(english_text, str) and english_text.strip()` for
the english cell read from the row. -/
def shouldTranslate (row : RowMap) : Bool :=
  match getCell "english_string" row with
  | some (Cell.str s) => !(pyStrip s == "")
  | _ => false

/-- Lines 199-210 of `app.py` for a single row: write the translation into
`portuguese_string` when the guard holds (making one client call,
whose attempts are driven by `oracleRow`), else write the empty string. -/
def processRow (oracleRow : Nat → AttemptOutcome) (row : RowMap) : RowMap :=
  if shouldTranslate row then
    setCol "portuguese_string" (Cell.str (get_gemini_translation oracleRow).output) row
  else
    setCol "portuguese_string" (Cell.str "") row

/-- The `for index, row in df.iterrows()` loop starting at row index `i`:
returns the processed rows plus, as verification instrumentation, the list
of row indices for which `get_gemini_translation` was invoked
(the code makes exactly one client call per guarded row). -/
def loopRows (oracle : Nat → Nat → AttemptOutcome) :
    Nat → List RowMap → List RowMap × List Nat
  | _, [] => ([], [])
  | i, row :: rest =>
    let out := processRow (oracle i) row
    let (outRest, calls) := loopRows oracle (i + 1) rest
    (out :: outRest, if shouldTranslate row then i :: calls else calls)

/-- Lines 196-213 of `app.py`: the assignment initialising the new column
the new column on every row, then the row loop fills it in. `oracle i n`
is what the `n`-th `requests.post` of the client call of row `i` would produce. -/
def runBatch (oracle : Nat → Nat → AttemptOutcome) (rows : List RowMap) :
    List RowMap × List Nat :=
  loopRows oracle 0 (rows.map (setCol "portuguese_string" (Cell.str "")))


/-- The fixed instruction preamble of `TRANSLATION_PROMPT_TEMPLATE` in `app.py`:
everything before the `\x7benglish_text\x7d` placeholder, verbatim. -/
def promptPreamble : String := r#"
**Role:** You are an expert technical translator and a native Brazilian Portuguese speaker. Your goal is to translate English HTML content into fluent, natural-sounding Brazilian Portuguese.

**Task:** Translate the user-provided English HTML content to Portuguese while strictly following all the rules below. Your output must be only the translated HTML string.

**Rules:**
1.  **Preserve HTML Integrity:**
    * You MUST NOT translate, alter, add, or remove any HTML tags (e.g., `<p>`, `<span style="...">`, `<a href="...">`, `<strong>`).
    * You MUST preserve all HTML attributes exactly as they are (e.g., `class="..."`, `style="..."`, `id="..."`, `href="..."`).
    * You MUST preserve all HTML entities (e.g., `&nbsp;`).
    * The HTML structure of your output must be absolutely identical to the input.

2.  **Do Not Translate (DNT) Terms:**
    * The following brand and product names MUST remain in English: `Mercer`, `Mercer Talent Enterprise`, `Element X`.

3.  **Do Not Translate Emails or URLs:**
    * Any email address (e.g., `mte.surveys@mercer.com`) or URL must remain unchanged.

4.  **Translate Only Content:**
    * Only translate the human-readable text content that is not part of an HTML tag or a DNT term.

**Examples:**

**Example 1: Simple text with styling**
* **English Input:** `<p><strong><span style="font-family: Arial, Helvetica, sans-serif; font-size: 14px;">I feel good about myself and believe others like me for who I am.</span></strong></p>`
* **Portuguese Output:** `<p><strong><span style="font-family: Arial, Helvetica, sans-serif; font-size: 14px;">Sinto-me bem comigo mesmo(a) e acredito que os outros gostam de mim por quem eu sou.</span></strong></p>`

**Example 2: Complex paragraph with DNT and a complicated email link**
* **English Input:** `<p><span style="font-family: Arial, Helvetica, sans-serif; font-size: 14px;">If you have any questions regarding this <strong>Element X</strong> questionnaire, please write to us at <a href="mailto:mte.surveys@mercer.com" rel="noreferrer noopener" target="_blank" class="fui-Link ___1rxvrpe f2hkw1w">mte.surveys@mercer.com</a> for assistance.&nbsp;</span></p>`
* **Portuguese Output:** `<p><span style="font-family: Arial, Helvetica, sans-serif; font-size: 14px;">Se tiver alguma dúvida sobre este questionário <strong>Element X</strong>, escreva para nós em <a href="mailto:mte.surveys@mercer.com" rel="noreferrer noopener" target="_blank" class="fui-Link ___1rxvrpe f2hkw1w">mte.surveys@mercer.com</a> para obter assistência.&nbsp;</span></p>`

**Example 3: Untagged survey options**
* **English Input:** `NeverRarelySometimesVery OftenAlways`
* **Portuguese Output:** `NuncaRaramenteÀs vezesMuito FrequentementeSempre`

---
"#

/-- The character `\x7b`. -/
def lbrace : Char := Char.ofNat 123

/-- The character `\x7d`. -/
def rbrace : Char := Char.ofNat 125

/-- Lines 12-49 of `app.py`: the instruction
preamble, the `\x7benglish_text\x7d` replacement field, and the trailing
newline before the closing triple quote.  The source writes this as one
literal; it is assembled here from the same bytes to exhibit the field. -/
def TRANSLATION_PROMPT_TEMPLATE : String :=
  promptPreamble ++ "{english_text}" ++ "\n"

/-- Errors `str.format` can raise while parsing the template. -/
inductive FormatError where
  | singleRbrace : FormatError
  | unterminated : FormatError
  | keyError (name : String) : FormatError
deriving DecidableEq

/-- Scanner state of `str.format`: copying literal text, just after an
opening brace, or inside a replacement field (name accumulated reversed). -/
inductive FmtMode where
  | normal : FmtMode
  | afterLbrace : FmtMode
  | afterRbrace : FmtMode
  | inField (nameRev : List Char) : FmtMode

/-- Python `template.format(english_text=v)` for the feature subset the
template can contain: literal text, doubled-brace escapes, and named
replacement fields.  A field named `english_text` is replaced by `v`
(the value is spliced verbatim, never rescanned); any other name raises
`KeyError`; a lone closing brace or an unterminated field raises
`ValueError`. -/
def pyFormatGo (v : List Char) : FmtMode → List Char → Except FormatError (List Char)
  | .normal, [] => .ok []
  | .afterLbrace, [] => .error .unterminated
  | .inField _, [] => .error .unterminated
  | .normal, c :: cs =>
    if c = lbrace then
      pyFormatGo v .afterLbrace cs
    else if c = rbrace then
      pyFormatGo v .afterRbrace cs
    else
      (pyFormatGo v .normal cs).map (fun r => c :: r)
  | .afterRbrace, [] => .error .singleRbrace
  | .afterRbrace, c :: cs =>
    if c = rbrace then (pyFormatGo v .normal cs).map (fun r => rbrace :: r)
    else .error .singleRbrace
  | .afterLbrace, c :: cs =>
    if c = lbrace then
      (pyFormatGo v .normal cs).map (fun r => lbrace :: r)
    else if c = rbrace then
      .error (.keyError "")
    else
      pyFormatGo v (.inField [c]) cs
  | .inField nameRev, c :: cs =>
    if c = rbrace then
      if String.mk nameRev.reverse = "english_text" then
        (pyFormatGo v .normal cs).map (fun r => v ++ r)
      else
        .error (.keyError (String.mk nameRev.reverse))
    else
      pyFormatGo v (.inField (c :: nameRev)) cs

/-- Python format of a whole template string with the single keyword
argument english_text = v. -/
def pythonFormat (template v : String) : Except FormatError String :=
  (pyFormatGo v.data .normal template.data).map String.mk

/-- Line 63 of `app.py`:
`full_prompt = TRANSLATION_PROMPT_TEMPLATE.format(english_text=text_to_translate)`. -/
def full_prompt (text_to_translate : String) : Except FormatError String :=
  pythonFormat TRANSLATION_PROMPT_TEMPLATE text_to_translate




/-- In-band failure tag of `get_gemini_translation`: the returned string
begins with `"Error:"`. -/
def hasErrorTag (s : String) : Bool :=
  "Error:".data.isPrefixOf s.data

/-- Stub endpoint that is rate limited on every attempt. -/
def stub429 : Nat → AttemptOutcome := fun _ => .resp 429 none "rate limited"

/-- Stub endpoint that answers 500 with a body text. -/
def stub500 : Nat → AttemptOutcome := fun _ => .resp 500 none "internal error"

/-- HTTP-success payload whose candidate carries only a finish reason. -/
def finishReasonPayload : Json :=
  .obj [("candidates", .arr [.obj [("finishReason", .str "SAFETY")]])]

/-- HTTP-success payload with a present but empty candidate list. -/
def emptyCandidatesPayload : Json := .obj [("candidates", .arr [])]

/-- HTTP-success payload with a present but empty parts list. -/
def emptyPartsPayload : Json :=
  .obj [("candidates", .arr [.obj [("content", .obj [("parts", .arr [])])]])]

/-- Successful payload whose translation text strips to `"Error: HTTP 500"`. -/
def spoofedSuccessPayload : Json := goodPayload " Error: HTTP 500 "

/-- A spreadsheet row with translatable source text. -/
def demoRow : RowMap :=
  [("key", Cell.str "k1"), ("english_string", Cell.str "<p>Hi</p>")]

/-- A spreadsheet row whose source text is blank after stripping. -/
def blankRow : RowMap :=
  [("key", Cell.str "k2"), ("english_string", Cell.str "  \t ")]

/-- A spreadsheet row whose source cell is a missing value. -/
def naRow : RowMap := [("key", Cell.str "k3"), ("english_string", Cell.na)]

/-- Oracle whose remote endpoint raises a transport exception for row 1
and succeeds for every other row. -/
def flakyOracle : Nat → Nat → AttemptOutcome :=
  fun i _ => if i = 1 then .exn "connection reset" else .resp 200 (some (goodPayload "ok")) ""

/-- Oracle whose remote endpoint succeeds for every row. -/
def steadyOracle : Nat → Nat → AttemptOutcome :=
  fun _ _ => .resp 200 (some (goodPayload "ok")) ""

lemma exceptMap_map {ε α β γ : Type} (f : α → β) (g : β → γ) (x : Except ε α) :
    (x.map f).map g = x.map (fun a => g (f a)) := by
  cases x <;> rfl

/-- Formatting copies a brace-free literal segment through unchanged. -/
lemma pyFormatGo_copy (v pre rest : List Char)
    (h : ∀ c ∈ pre, c ≠ lbrace ∧ c ≠ rbrace) :
    pyFormatGo v .normal (pre ++ rest) =
      (pyFormatGo v .normal rest).map (fun r => pre ++ r) := by
  induction pre with
  | nil =>
    cases hx : pyFormatGo v FmtMode.normal rest <;> simp [Except.map, hx]
  | cons c cs ih =>
    have hc := h c (List.mem_cons_self _ _)
    have hcs : ∀ x ∈ cs, x ≠ lbrace ∧ x ≠ rbrace :=
      fun x hx => h x (List.mem_cons_of_mem _ hx)
    show (if c = lbrace then pyFormatGo v .afterLbrace (cs ++ rest)
          else if c = rbrace then pyFormatGo v .afterRbrace (cs ++ rest)
          else (pyFormatGo v .normal (cs ++ rest)).map (fun r => c :: r)) = _
    rw [if_neg hc.1, if_neg hc.2, ih hcs, exceptMap_map]
    rfl

/-- Formatting the `english_text` replacement field splices in the value. -/
lemma pyFormatGo_field (v rest : List Char) :
    pyFormatGo v .normal (lbrace :: ("english_text".data ++ (rbrace :: rest))) =
      (pyFormatGo v .normal rest).map (fun r => v ++ r) := rfl

set_option maxRecDepth 100000 in
/-- The instruction preamble contains no brace at all (computed check). -/
lemma promptPreamble_braceFreeB :
    promptPreamble.data.all (fun c => !(c = lbrace) && !(c = rbrace)) = true := by
  decide

/-- The instruction preamble contains no brace at all. -/
lemma promptPreamble_braceFree : ∀ c ∈ promptPreamble.data, c ≠ lbrace ∧ c ≠ rbrace := by
  have h := promptPreamble_braceFreeB
  rw [List.all_eq_true] at h
  intro c hc
  have hcb := h c hc
  simp only [Bool.and_eq_true, Bool.not_eq_true', decide_eq_false_iff_not] at hcb
  exact hcb

/-- The template splits as preamble, replacement field, trailing newline. -/
lemma template_split :
    TRANSLATION_PROMPT_TEMPLATE.data =
      promptPreamble.data ++ (lbrace :: ("english_text".data ++ (rbrace :: ['\n']))) := by
  show (promptPreamble ++ "{english_text}" ++ "\n").data = _
  rw [String.data_append, String.data_append, List.append_assoc]
  congr 1

/-- Claim C1: the prompt builder is pure and total: for every source string
(empty, braces, anything), `TRANSLATION_PROMPT_TEMPLATE.format(english_text=s)`
returns (never raises) the fixed instruction preamble with the literal
source text spliced in at the fixed anchor point, followed by the
closing newline of the template. -/
theorem c1_prompt_builder_pure_total (s : String) :
    full_prompt s = .ok (promptPreamble ++ s ++ "\n") := by
  show (pyFormatGo s.data .normal TRANSLATION_PROMPT_TEMPLATE.data).map String.mk = _
  rw [template_split, pyFormatGo_copy s.data _ _ promptPreamble_braceFree, pyFormatGo_field]
  show (Except.ok (String.mk (promptPreamble.data ++ (s.data ++ ['\n'])))
      : Except FormatError String) = _
  have hd : promptPreamble.data ++ (s.data ++ ['\n']) = (promptPreamble ++ s ++ "\n").data := by
    rw [String.data_append, String.data_append, List.append_assoc]
  exact congrArg Except.ok (by rw [hd])

lemma translateGo_exn (delay : Nat) (m : String) (rest : List AttemptOutcome) :
    translateGo delay (.exn m :: rest) = ⟨"Error: API call failed.", 1, []⟩ := rfl

/-- One unfolding step of the retry loop on a returned response. -/
lemma translateGo_cons (delay status : Nat) (body : Option Json) (t : String)
    (rest : List AttemptOutcome) :
    translateGo delay (.resp status body t :: rest) =
      if 400 ≤ status ∧ status < 600 then
        if status = 429 then
          ⟨(translateGo (delay * 2) rest).output, (translateGo (delay * 2) rest).attempts + 1,
            delay :: (translateGo (delay * 2) rest).sleeps⟩
        else ⟨"Error: HTTP " ++ toString status, 1, []⟩
      else
        match body with
        | none => ⟨"Error: API call failed.", 1, []⟩
        | some result =>
          match extractTranslation result with
          | .ok (some s) => ⟨s, 1, []⟩
          | .ok none => ⟨"Error: Unexpected response format.", 1, []⟩
          | .error _ => ⟨"Error: API call failed.", 1, []⟩ := rfl

/-- Claim C4: when the endpoint answers 429 on every attempt, exactly
`max_retries = 5` attempts are made and the call returns the in-band
retries-exhausted failure, raising nothing. -/
theorem c4_retry_exhaustion (stub : Nat → AttemptOutcome)
    (bodies : Nat → Option Json) (texts : Nat → String)
    (h : ∀ n, n < max_retries → stub n = AttemptOutcome.resp 429 (bodies n) (texts n)) :
    (get_gemini_translation stub).output = "Error: Max retries exceeded." ∧
      (get_gemini_translation stub).attempts = max_retries := by
  have e : get_gemini_translation stub = ⟨"Error: Max retries exceeded.", 5, [1, 2, 4, 8, 16]⟩ := by
    show translateGo 1 ((List.range max_retries).map stub) = _
    rw [show List.range max_retries = [0, 1, 2, 3, 4] from rfl]
    simp only [List.map]
    rw [h 0 (by decide), h 1 (by decide), h 2 (by decide), h 3 (by decide), h 4 (by decide)]
    rfl
  rw [e]
  exact ⟨rfl, rfl⟩

theorem c4_retry_exhaustion_witness :
    (∀ n, n < max_retries →
        stub429 n = AttemptOutcome.resp 429 ((fun _ => none) n) ((fun _ => "rate limited") n)) ∧
      (get_gemini_translation stub429).output = "Error: Max retries exceeded." ∧
      (get_gemini_translation stub429).attempts = max_retries :=
  ⟨fun _ _ => rfl,
    c4_retry_exhaustion stub429 (fun _ => none) (fun _ => "rate limited") (fun _ _ => rfl)⟩

/-- Claim C6: a non-429 HTTP error status on the first attempt resolves the
call immediately: one attempt, no sleep, in-band `HTTP` failure string. -/
theorem c6_http_error_no_retry (stub : Nat → AttemptOutcome) (status : Nat)
    (body : Option Json) (t : String) (h0 : stub 0 = .resp status body t)
    (h4 : 400 ≤ status) (h6 : status < 600) (hne : status ≠ 429) :
    get_gemini_translation stub = ⟨"Error: HTTP " ++ toString status, 1, []⟩ := by
  show translateGo 1 ((List.range max_retries).map stub) = _
  rw [show List.range max_retries = [0, 1, 2, 3, 4] from rfl]
  simp only [List.map]
  rw [h0, translateGo_cons, if_pos ⟨h4, h6⟩, if_neg hne]

theorem c6_http_error_no_retry_witness :
    stub500 0 = AttemptOutcome.resp 500 none "internal error" ∧
      get_gemini_translation stub500 = ⟨"Error: HTTP 500", 1, []⟩ :=
  ⟨rfl,
    (c6_http_error_no_retry stub500 500 none "internal error" rfl (by decide) (by decide)
      (by decide)).trans (by decide)⟩

/-- Claim C5 counterexample: with a stub that answers 429 on every attempt
the call makes 5 attempts but performs 5 sleeps — one of them after the
final attempt — so the sleep count is not `attempts - 1`. -/
theorem c5_counterexample :
    (get_gemini_translation stub429).attempts = 5 ∧
      (get_gemini_translation stub429).sleeps = [1, 2, 4, 8, 16] ∧
      (get_gemini_translation stub429).sleeps.length ≠
        (get_gemini_translation stub429).attempts - 1 := by
  decide

lemma translateGo_resp_noJson (delay status : Nat) (t : String) (rest : List AttemptOutcome)
    (h : ¬(400 ≤ status ∧ status < 600)) :
    translateGo delay (.resp status none t :: rest) = ⟨"Error: API call failed.", 1, []⟩ := by
  rw [translateGo_cons, if_neg h]

/-- A non-error status resolves the call on this attempt, classified by the
payload navigation. -/
lemma translateGo_resp_json (delay status : Nat) (result : Json) (t : String)
    (rest : List AttemptOutcome) (h : ¬(400 ≤ status ∧ status < 600)) :
    translateGo delay (.resp status (some result) t :: rest) =
      match extractTranslation result with
      | .ok (some s) => ⟨s, 1, []⟩
      | .ok none => ⟨"Error: Unexpected response format.", 1, []⟩
      | .error _ => ⟨"Error: API call failed.", 1, []⟩ := by
  rw [translateGo_cons, if_neg h]

/-- Structure of a retry-loop run started with delay `delay`: the recorded
sleeps are `delay, 2*delay, 4*delay, ...`, and either the call resolved on
some attempt (one more attempt than sleeps) or the whole trace was consumed
by 429s (one sleep per attempt, exhaustion output). -/
lemma translateGo_shape (trace : List AttemptOutcome) : ∀ delay : Nat,
    (translateGo delay trace).sleeps =
        (List.range (translateGo delay trace).sleeps.length).map (fun k => delay * 2 ^ k) ∧
      ((translateGo delay trace).attempts = (translateGo delay trace).sleeps.length + 1 ∧
          (translateGo delay trace).attempts ≤ trace.length ∨
        (translateGo delay trace).attempts = trace.length ∧
          (translateGo delay trace).sleeps.length = trace.length ∧
          (translateGo delay trace).output = "Error: Max retries exceeded.") := by
  induction trace with
  | nil =>
    intro delay
    exact ⟨rfl, Or.inr ⟨rfl, rfl, rfl⟩⟩
  | cons o rest ih =>
    intro delay
    cases o with
    | exn m =>
      rw [translateGo_exn]
      exact ⟨rfl, Or.inl ⟨rfl, Nat.succ_le_succ (Nat.zero_le _)⟩⟩
    | resp status body t =>
      by_cases herr : 400 ≤ status ∧ status < 600
      · by_cases h429 : status = 429
        · rw [translateGo_cons, if_pos herr, if_pos h429]
          obtain ⟨ihs, ihd⟩ := ih (delay * 2)
          refine ⟨?_, ?_⟩
          · show delay :: (translateGo (delay * 2) rest).sleeps =
              (List.range ((delay :: (translateGo (delay * 2) rest).sleeps).length)).map
                (fun k => delay * 2 ^ k)
            rw [List.length_cons, List.range_succ_eq_map, List.map_cons, List.map_map]
            refine congrArg₂ List.cons (by simp) ?_
            conv_lhs => rw [ihs]
            refine List.map_congr_left ?_
            intro k _
            show delay * 2 * 2 ^ k = delay * 2 ^ (k + 1)
            rw [pow_succ]
            ring
          · rcases ihd with ⟨ha, hb⟩ | ⟨ha, hb, hc⟩
            · exact Or.inl ⟨by simp [ha], by simpa using Nat.succ_le_succ hb⟩
            · exact Or.inr ⟨by simp [ha], by simp [hb], hc⟩
        · rw [translateGo_cons, if_pos herr, if_neg h429]
          exact ⟨rfl, Or.inl ⟨rfl, Nat.succ_le_succ (Nat.zero_le _)⟩⟩
      · cases body with
        | none =>
          rw [translateGo_resp_noJson _ _ _ _ herr]
          exact ⟨rfl, Or.inl ⟨rfl, Nat.succ_le_succ (Nat.zero_le _)⟩⟩
        | some result =>
          rw [translateGo_resp_json _ _ _ _ _ herr]
          rcases extractTranslation result with e | o
          · exact ⟨rfl, Or.inl ⟨rfl, Nat.succ_le_succ (Nat.zero_le _)⟩⟩
          · cases o <;> exact ⟨rfl, Or.inl ⟨rfl, Nat.succ_le_succ (Nat.zero_le _)⟩⟩

/-- Claim C5, amended: sleeps happen in the 429 handler, so a call that
resolves on attempt `k` (success, malformed payload, non-429 HTTP error,
or exception) performs exactly `k - 1` sleeps of 1, 2, 4, ... seconds; but
when all 5 attempts answer 429 the loop also sleeps after the final
attempt, performing 5 sleeps (not 4) before returning the exhaustion
failure. -/
theorem c5_backoff_sleeps_amended (stub : Nat → AttemptOutcome) :
    (get_gemini_translation stub).sleeps =
        (List.range (get_gemini_translation stub).sleeps.length).map (fun k => 2 ^ k) ∧
      ((get_gemini_translation stub).sleeps.length = (get_gemini_translation stub).attempts - 1 ∨
        ((get_gemini_translation stub).attempts = max_retries ∧
          (get_gemini_translation stub).sleeps.length = max_retries ∧
          (get_gemini_translation stub).output = "Error: Max retries exceeded.")) := by
  rw [show get_gemini_translation stub
      = translateGo 1 ((List.range max_retries).map stub) from rfl]
  obtain ⟨hs, hd⟩ := translateGo_shape ((List.range max_retries).map stub) 1
  refine ⟨?_, ?_⟩
  · conv_lhs => rw [hs]
    exact List.map_congr_left (fun k _ => by rw [one_mul])
  · rcases hd with ⟨ha, _⟩ | ⟨ha, hb, hc⟩
    · exact Or.inl (by omega)
    · refine Or.inr ⟨?_, ?_, hc⟩
      · rw [ha, List.length_map, List.length_range]
      · rw [hb, List.length_map, List.length_range]

/-- Claim C7, amended: on an HTTP-success response the first attempt
resolves the call (1 attempt, no sleep) and the output is classified by the
payload navigation alone: a payload missing the `candidates`/`content`/
`parts` keys (or with an empty or falsy `candidates` list) yields the fixed
detail string `"Error: Unexpected response format."` — the finish
reason of the payload is never consulted — while a payload whose navigation raises (for
example a present but empty `parts` list) yields `"Error: API call failed."`. -/
theorem c7_malformed_response_amended (stub : Nat → AttemptOutcome) (status : Nat)
    (result : Json) (t : String) (h0 : stub 0 = .resp status (some result) t)
    (hok : ¬(400 ≤ status ∧ status < 600)) :
    get_gemini_translation stub =
      match extractTranslation result with
      | .ok (some s) => ⟨s, 1, []⟩
      | .ok none => ⟨"Error: Unexpected response format.", 1, []⟩
      | .error _ => ⟨"Error: API call failed.", 1, []⟩ := by
  show translateGo 1 ((List.range max_retries).map stub) = _
  rw [show List.range max_retries = [0, 1, 2, 3, 4] from rfl]
  simp only [List.map]
  rw [h0]
  exact translateGo_resp_json _ _ _ _ _ hok

/-- Claim C7 counterexample: an HTTP-success payload that carries a finish
reason (`"SAFETY"`) but no content yields the fixed detail string, which
does not mention the finish reason at all. -/
theorem c7_counterexample :
    (get_gemini_translation (fun _ => .resp 200 (some finishReasonPayload) "")).output =
        "Error: Unexpected response format." ∧
      (get_gemini_translation (fun _ => .resp 200 (some finishReasonPayload) "")).output ≠
        "SAFETY" ∧
      containsSub
        (get_gemini_translation (fun _ => .resp 200 (some finishReasonPayload) "")).output.data
        "SAFETY".data = false := by
  decide

theorem c7_malformed_response_amended_witness :
    get_gemini_translation (fun _ => .resp 200 (some emptyCandidatesPayload) "") =
        ⟨"Error: Unexpected response format.", 1, []⟩ ∧
      get_gemini_translation (fun _ => .resp 200 (some emptyPartsPayload) "") =
        ⟨"Error: API call failed.", 1, []⟩ :=
  ⟨(c7_malformed_response_amended _ 200 emptyCandidatesPayload "" rfl (by decide)).trans
      (by decide),
    (c7_malformed_response_amended _ 200 emptyPartsPayload "" rfl (by decide)).trans
      (by decide)⟩

/-- The HTTP-error output carries the tag whatever the status digits are. -/
lemma hasErrorTag_http (t : String) : hasErrorTag ("Error: HTTP " ++ t) = true := by
  show ("Error:".data.isPrefixOf ("Error: HTTP " ++ t).data) = true
  rw [String.data_append]
  rfl

/-- Every output of the retry loop is either tagged `"Error:"` or the
stripped text part of a successfully navigated HTTP-success payload in the
trace. -/
lemma translateGo_output_cases (trace : List AttemptOutcome) : ∀ delay : Nat,
    hasErrorTag (translateGo delay trace).output = true ∨
      ∃ status result t s, AttemptOutcome.resp status (some result) t ∈ trace ∧
        ¬(400 ≤ status ∧ status < 600) ∧ extractTranslation result = .ok (some s) ∧
        (translateGo delay trace).output = s := by
  induction trace with
  | nil =>
    intro delay
    exact Or.inl rfl
  | cons o rest ih =>
    intro delay
    cases o with
    | exn m =>
      rw [translateGo_exn]
      exact Or.inl rfl
    | resp status body t =>
      by_cases herr : 400 ≤ status ∧ status < 600
      · by_cases h429 : status = 429
        · rw [translateGo_cons, if_pos herr, if_pos h429]
          rcases ih (delay * 2) with h | ⟨st, res, t2, s, hmem, hs, hex, hout⟩
          · exact Or.inl h
          · exact Or.inr ⟨st, res, t2, s, List.mem_cons_of_mem _ hmem, hs, hex, hout⟩
        · rw [translateGo_cons, if_pos herr, if_neg h429]
          exact Or.inl (hasErrorTag_http _)
      · cases body with
        | none =>
          rw [translateGo_resp_noJson _ _ _ _ herr]
          exact Or.inl rfl
        | some result =>
          rw [translateGo_resp_json _ _ _ _ _ herr]
          rcases hres : extractTranslation result with e | o
          · exact Or.inl rfl
          · cases o with
            | none => exact Or.inl rfl
            | some s =>
              exact Or.inr ⟨status, result, t, s, List.mem_cons_self _ _, herr, hres, rfl⟩

/-- Claim C10: every failure outcome of the client is encoded in-band as a
string introduced by `"Error:"` and written to the same `portuguese_string`
column as successes — any output not so tagged is the stripped text of a
successful payload — and there is no out-of-band tag: a batch whose model
answers with the successful translation text `" Error: HTTP 500 "` produces
exactly the same output table as a batch whose call fails with HTTP 500. -/
theorem c10_in_band_error_encoding :
    (∀ stub : Nat → AttemptOutcome,
        hasErrorTag (get_gemini_translation stub).output = true ∨
          ∃ n status result t s, n < max_retries ∧
            stub n = AttemptOutcome.resp status (some result) t ∧
            ¬(400 ≤ status ∧ status < 600) ∧ extractTranslation result = .ok (some s) ∧
            (get_gemini_translation stub).output = s) ∧
      (runBatch (fun _ _ => .resp 200 (some spoofedSuccessPayload) "") [demoRow]).1 =
        (runBatch (fun _ _ => .resp 500 none "internal error") [demoRow]).1 := by
  constructor
  · intro stub
    rcases translateGo_output_cases ((List.range max_retries).map stub) 1 with
      h | ⟨status, result, t, s, hmem, hst, hex, hout⟩
    · exact Or.inl h
    · obtain ⟨n, hn, hfn⟩ := List.mem_map.mp hmem
      exact Or.inr ⟨n, status, result, t, s, List.mem_range.mp hn, hfn, hst, hex, hout⟩
  · decide

/-- Writing one column leaves every other column unchanged. -/
lemma getCell_setCol_ne (c c' : String) (v : Cell) (r : RowMap) (h : c ≠ c') :
    getCell c (setCol c' v r) = getCell c r := by
  induction r with
  | nil => simp [setCol, getCell, Ne.symm h]
  | cons kv rest ih =>
    obtain ⟨k, w⟩ := kv
    by_cases hk : k = c' <;> by_cases hkc : k = c <;>
      simp_all [setCol, getCell, Ne.symm h]

/-- Reading back the column just written. -/
lemma getCell_setCol_same (c : String) (v : Cell) (r : RowMap) :
    getCell c (setCol c v r) = some v := by
  induction r with
  | nil => simp [setCol, getCell]
  | cons kv rest ih =>
    obtain ⟨k, w⟩ := kv
    by_cases hk : k = c <;> simp_all [setCol, getCell]

/-- The skip guard reads only `english_string`, so writing
`portuguese_string` does not change it. -/
lemma shouldTranslate_setCol_pt (v : Cell) (row : RowMap) :
    shouldTranslate (setCol "portuguese_string" v row) = shouldTranslate row := by
  unfold shouldTranslate
  rw [getCell_setCol_ne _ _ _ _ (by decide)]

/-- Row processing writes only the `portuguese_string` column. -/
lemma getCell_processRow (orc : Nat → AttemptOutcome) (row : RowMap) (c : String)
    (hc : c ≠ "portuguese_string") :
    getCell c (processRow orc row) = getCell c row := by
  by_cases h : shouldTranslate row <;>
    simp [processRow, h, getCell_setCol_ne _ _ _ _ hc]

/-- The `portuguese_string` cell a processed row ends up with. -/
lemma getCell_processRow_pt (orc : Nat → AttemptOutcome) (row : RowMap) :
    getCell "portuguese_string" (processRow orc row) =
      some (Cell.str (if shouldTranslate row then (get_gemini_translation orc).output
        else "")) := by
  by_cases h : shouldTranslate row <;>
    simp [processRow, h, getCell_setCol_same]

lemma loopRows_length (oracle : Nat → Nat → AttemptOutcome) :
    ∀ (rows : List RowMap) (i : Nat), (loopRows oracle i rows).1.length = rows.length := by
  intro rows
  induction rows with
  | nil => intro i; rfl
  | cons row rest ih =>
    intro i
    show (processRow (oracle i) row :: (loopRows oracle (i + 1) rest).1).length = _
    rw [List.length_cons, ih]
    rfl

/-- Projection of the processed rows onto any column other than
`portuguese_string` is the projection of the input rows. -/
lemma loopRows_map_getCell (oracle : Nat → Nat → AttemptOutcome) (c : String)
    (hc : c ≠ "portuguese_string") :
    ∀ (rows : List RowMap) (i : Nat),
      (loopRows oracle i rows).1.map (getCell c) = rows.map (getCell c) := by
  intro rows
  induction rows with
  | nil => intro i; rfl
  | cons row rest ih =>
    intro i
    show getCell c (processRow (oracle i) row) :: (loopRows oracle (i + 1) rest).1.map (getCell c)
      = getCell c row :: rest.map (getCell c)
    rw [getCell_processRow _ _ _ hc, ih]

/-- The `j`-th processed row is the `j`-th input row processed with the
oracle of absolute row index `i + j`. -/
lemma loopRows_get? (oracle : Nat → Nat → AttemptOutcome) :
    ∀ (rows : List RowMap) (i j : Nat),
      (loopRows oracle i rows).1.get? j =
        (rows.get? j).map (fun row => processRow (oracle (i + j)) row) := by
  intro rows
  induction rows with
  | nil => intro i j; cases j <;> rfl
  | cons row rest ih =>
    intro i j
    cases j with
    | zero =>
      show some (processRow (oracle i) row) = some (processRow (oracle (i + 0)) row)
      rw [Nat.add_zero]
    | succ j =>
      show (loopRows oracle (i + 1) rest).1.get? j
        = (rest.get? j).map (fun row => processRow (oracle (i + (j + 1))) row)
      rw [ih (i + 1) j, show i + 1 + j = i + (j + 1) from by omega]

lemma loopRows_calls_ge (oracle : Nat → Nat → AttemptOutcome) :
    ∀ (rows : List RowMap) (i k : Nat), k ∈ (loopRows oracle i rows).2 → i ≤ k := by
  intro rows
  induction rows with
  | nil => intro i k h; cases h
  | cons row rest ih =>
    intro i k h
    by_cases hs : shouldTranslate row
    · rw [show (loopRows oracle i (row :: rest)).2
          = i :: (loopRows oracle (i + 1) rest).2 from by simp [loopRows, hs]] at h
      rcases List.mem_cons.mp h with rfl | h2
      · exact Nat.le_refl _
      · exact Nat.le_of_succ_le (ih (i + 1) k h2)
    · rw [show (loopRows oracle i (row :: rest)).2
          = (loopRows oracle (i + 1) rest).2 from by simp [loopRows, hs]] at h
      exact Nat.le_of_succ_le (ih (i + 1) k h)

/-- Exactly one client call is recorded for a guarded row, none for a
skipped one. -/
lemma loopRows_calls_count (oracle : Nat → Nat → AttemptOutcome) :
    ∀ (rows : List RowMap) (i j : Nat) (row : RowMap), rows.get? j = some row →
      (loopRows oracle i rows).2.count (i + j) =
        if shouldTranslate row then 1 else 0 := by
  intro rows
  induction rows with
  | nil => intro i j row h; cases j <;> cases h
  | cons row0 rest ih =>
    intro i j row h
    cases j with
    | zero =>
      have hrow : row0 = row := by injection h
      subst hrow
      rw [Nat.add_zero]
      have hc0 : (loopRows oracle (i + 1) rest).2.count i = 0 := by
        refine List.count_eq_zero.mpr ?_
        intro hmem
        exact absurd (loopRows_calls_ge oracle rest (i + 1) _ hmem) (by omega)
      by_cases hs : shouldTranslate row0
      · rw [show (loopRows oracle i (row0 :: rest)).2
            = i :: (loopRows oracle (i + 1) rest).2 from by simp [loopRows, hs]]
        rw [if_pos hs, List.count_cons_self, hc0]
      · rw [show (loopRows oracle i (row0 :: rest)).2
            = (loopRows oracle (i + 1) rest).2 from by simp [loopRows, hs]]
        rw [if_neg hs]
        exact hc0
    | succ j =>
      have hrest : rest.get? j = some row := h
      have ih2 := ih (i + 1) j row hrest
      rw [show (i + 1) + j = i + (j + 1) from by omega] at ih2
      by_cases hs : shouldTranslate row0
      · rw [show (loopRows oracle i (row0 :: rest)).2
            = i :: (loopRows oracle (i + 1) rest).2 from by simp [loopRows, hs]]
        rw [List.count_cons_of_ne (by omega), ih2]
      · rw [show (loopRows oracle i (row0 :: rest)).2
            = (loopRows oracle (i + 1) rest).2 from by simp [loopRows, hs]]
        exact ih2

/-- Claim C2: the batch records exactly one outcome row per input row — no
row is dropped whatever the per-row outcomes — and the key column of the
output equals the key column of the input, in input order. -/
theorem c2_batch_completeness_and_order (oracle : Nat → Nat → AttemptOutcome)
    (rows : List RowMap) :
    (runBatch oracle rows).1.length = rows.length ∧
      (runBatch oracle rows).1.map (getCell "key") = rows.map (getCell "key") := by
  constructor
  · show (loopRows oracle 0 (rows.map (setCol "portuguese_string" (Cell.str "")))).1.length = _
    rw [loopRows_length, List.length_map]
  · show (loopRows oracle 0 (rows.map (setCol "portuguese_string" (Cell.str "")))).1.map
        (getCell "key") = _
    rw [loopRows_map_getCell oracle "key" (by decide), List.map_map]
    exact List.map_congr_left (fun r _ => getCell_setCol_ne _ _ _ _ (by decide))

/-- Claim C9: the batch writes only `portuguese_string` cells — the
projection of the output onto any other column equals the projection of
the input. -/
theorem c9_frame_only_portuguese (oracle : Nat → Nat → AttemptOutcome)
    (rows : List RowMap) (c : String) (hc : c ≠ "portuguese_string") :
    (runBatch oracle rows).1.map (getCell c) = rows.map (getCell c) := by
  show (loopRows oracle 0 (rows.map (setCol "portuguese_string" (Cell.str "")))).1.map
      (getCell c) = _
  rw [loopRows_map_getCell oracle c hc, List.map_map]
  exact List.map_congr_left (fun r _ => getCell_setCol_ne _ _ _ _ hc)

theorem c9_frame_only_portuguese_witness :
    (runBatch (fun _ _ => .exn "connection reset") [demoRow, blankRow, naRow]).1.map
        (getCell "english_string") =
      [demoRow, blankRow, naRow].map (getCell "english_string") :=
  c9_frame_only_portuguese _ _ _ (by decide)

/-- Claim C3: a row whose source cell is absent, not a string, or blank
after stripping gets the empty `portuguese_string` cell and causes no
client call; any other row causes exactly one client call, whose output
string is written to its `portuguese_string` cell. -/
theorem c3_skip_rule (oracle : Nat → Nat → AttemptOutcome) (rows : List RowMap)
    (j : Nat) (row : RowMap) (hj : rows.get? j = some row) :
    ∃ outRow, (runBatch oracle rows).1.get? j = some outRow ∧
      (shouldTranslate row = false →
        getCell "portuguese_string" outRow = some (Cell.str "") ∧
          (runBatch oracle rows).2.count j = 0) ∧
      (shouldTranslate row = true →
        getCell "portuguese_string" outRow =
            some (Cell.str (get_gemini_translation (oracle j)).output) ∧
          (runBatch oracle rows).2.count j = 1) := by
  have hmap : (rows.map (setCol "portuguese_string" (Cell.str ""))).get? j
      = some (setCol "portuguese_string" (Cell.str "") row) := by
    rw [List.get?_map, hj]
    rfl
  have hget : (runBatch oracle rows).1.get? j
      = some (processRow (oracle (0 + j)) (setCol "portuguese_string" (Cell.str "") row)) := by
    show (loopRows oracle 0 _).1.get? j = _
    rw [loopRows_get?, hmap]
    rfl
  have hcount : (runBatch oracle rows).2.count (0 + j)
      = if shouldTranslate row then 1 else 0 := by
    show (loopRows oracle 0 _).2.count (0 + j) = _
    rw [loopRows_calls_count oracle _ 0 j _ hmap, shouldTranslate_setCol_pt]
  rw [Nat.zero_add] at hget hcount
  refine ⟨_, hget, ?_, ?_⟩
  · intro hs
    refine ⟨?_, ?_⟩
    · rw [getCell_processRow_pt, shouldTranslate_setCol_pt, hs]
      simp
    · rw [hcount, hs]
      simp
  · intro hs
    refine ⟨?_, ?_⟩
    · rw [getCell_processRow_pt, shouldTranslate_setCol_pt, hs]
      simp
    · rw [hcount, hs]
      simp

theorem c3_skip_rule_witness :
    ([demoRow, blankRow, naRow].get? 1 = some blankRow ∧
        ∃ outRow, (runBatch steadyOracle [demoRow, blankRow, naRow]).1.get? 1 = some outRow ∧
          (shouldTranslate blankRow = false →
            getCell "portuguese_string" outRow = some (Cell.str "") ∧
              (runBatch steadyOracle [demoRow, blankRow, naRow]).2.count 1 = 0) ∧
          (shouldTranslate blankRow = true →
            getCell "portuguese_string" outRow =
                some (Cell.str (get_gemini_translation (steadyOracle 1)).output) ∧
              (runBatch steadyOracle [demoRow, blankRow, naRow]).2.count 1 = 1)) ∧
      shouldTranslate blankRow = false :=
  ⟨⟨rfl, c3_skip_rule steadyOracle [demoRow, blankRow, naRow] 1 blankRow rfl⟩, by decide⟩

/-- Claim C8: per-row failures are isolated — each output row depends only
on its own input row and the remote behaviour of its own row (so a transport
exception on one row cannot change any other row), and every processed row
records a string outcome in `portuguese_string`. -/
theorem c8_row_isolation (o1 o2 : Nat → Nat → AttemptOutcome) (rows : List RowMap)
    (j : Nat) (hagree : ∀ k, o1 j k = o2 j k) :
    (runBatch o1 rows).1.get? j = (runBatch o2 rows).1.get? j ∧
      ∀ i outRow, (runBatch o1 rows).1.get? i = some outRow →
        ∃ s, getCell "portuguese_string" outRow = some (Cell.str s) := by
  have hfun : o1 j = o2 j := funext hagree
  constructor
  · show (loopRows o1 0 (rows.map (setCol "portuguese_string" (Cell.str "")))).1.get? j
      = (loopRows o2 0 (rows.map (setCol "portuguese_string" (Cell.str "")))).1.get? j
    rw [loopRows_get?, loopRows_get?, Nat.zero_add, hfun]
  · intro i outRow hout
    rw [show (runBatch o1 rows).1
        = (loopRows o1 0 (rows.map (setCol "portuguese_string" (Cell.str "")))).1 from rfl,
      loopRows_get?] at hout
    cases hrow : (rows.map (setCol "portuguese_string" (Cell.str ""))).get? i with
    | none =>
      rw [hrow] at hout
      cases hout
    | some r0 =>
      rw [hrow] at hout
      injection hout with hout
      exact ⟨_, by rw [← hout, getCell_processRow_pt]⟩

theorem c8_row_isolation_witness :
    ((∀ k, flakyOracle 0 k = steadyOracle 0 k) ∧
        (runBatch flakyOracle [demoRow, demoRow, demoRow]).1.get? 0 =
          (runBatch steadyOracle [demoRow, demoRow, demoRow]).1.get? 0 ∧
        ∀ i outRow, (runBatch flakyOracle [demoRow, demoRow, demoRow]).1.get? i = some outRow →
          ∃ s, getCell "portuguese_string" outRow = some (Cell.str s)) ∧
      (runBatch flakyOracle [demoRow, demoRow, demoRow]).1.map (getCell "portuguese_string") =
        [some (Cell.str "ok"), some (Cell.str "Error: API call failed."), some (Cell.str "ok")] :=
  ⟨⟨fun _ => rfl,
      c8_row_isolation flakyOracle steadyOracle [demoRow, demoRow, demoRow] 0 (fun _ => rfl)⟩,
    by decide⟩
